import Mathlib

/-!
Verification of the BatteryMonitor program (src/battery_monitor.py).

The Python source is shallowly embedded below.  Machine integers are `Int`
(Python ints are unbounded), battery percentages and sensor readings are
`Rat` (embedding the numeric values exactly), Python `divmod` is
`Int.fdiv` / `Int.fmod` (floor division, as in Python), and code that can
raise an uncaught exception returns `Except String α` where `.error`
carries the exception class name.
-/

set_option autoImplicit false

namespace BatteryMonitor

/-- psutil sentinel `POWER_TIME_UNKNOWN` (value -1 in psutil). -/
def POWER_TIME_UNKNOWN : Int := -1

/-- psutil sentinel `POWER_TIME_UNLIMITED` (value -2 in psutil). -/
def POWER_TIME_UNLIMITED : Int := -2

/-- Python `str(n)` for an integer, as produced inside an f-string. -/
def intStr (n : Int) : String := toString n

/-- Python format spec `02d` applied to an integer: zero-pad to width 2.
For `0 ≤ n < 10` this prepends a `0`; any other integer already prints
with at least two characters, so it is unchanged. -/
def pad2 (n : Int) : String :=
  if 0 ≤ n ∧ n < 10 then "0" ++ toString n else toString n

/-- Python format spec `02d` on a natural number (used for `%H:%M:%S`). -/
def pad2n (n : Nat) : String :=
  if n < 10 then "0" ++ toString n else toString n

/-- A wall-clock instant, as the hour/minute/second fields that
`datetime.now().strftime` reads. -/
structure ClockTime where
  hh : Nat
  mm : Nat
  ss : Nat
  deriving DecidableEq

/-- `datetime.now().strftime('%H:%M:%S')`: each field zero-padded to two
digits, colon separated. -/
def formatClock (t : ClockTime) : String :=
  pad2n t.hh ++ ":" ++ pad2n t.mm ++ ":" ++ pad2n t.ss

/-- The time-remaining string computed by `BatteryMonitor.update_data`
(src/battery_monitor.py lines 213-224): `"Charging"` when plugged in, the
two psutil sentinels, and otherwise `divmod`-based `H:MM` formatting with
suffix `" remaining"`. -/
def timeRemainingStr (power_plugged : Bool) (secsleft : Int) : String :=
  if power_plugged then "Charging"
  else if secsleft = POWER_TIME_UNLIMITED then "Unlimited"
  else if secsleft = POWER_TIME_UNKNOWN then "Calculating..."
  else
    -- mm, ss = divmod(secsleft, 60); hh, mm = divmod(mm, 60)
    let mm : Int := secsleft.fdiv 60
    let hh : Int := mm.fdiv 60
    let mmr : Int := mm.fmod 60
    intStr hh ++ ":" ++ pad2 mmr ++ " remaining"

/-- Python format spec `.1f` on the embedded exact value: one digit after
the decimal point, rounding half to even, with a leading minus sign
exactly when the value is negative.  The rounding of `10 * x` to the
nearest integer (ties to even) is computed on `x.num` / `x.den` directly:
`a.fdiv d` is its floor and the fractional part compares to `1/2` as
`2 * (a.fmod d)` compares to `d`. -/
def format1f (x : Rat) : String :=
  let a : Int := 10 * x.num
  let d : Int := (x.den : Int)
  let f : Int := a.fdiv d
  let r : Int := a.fmod d
  let n : Int :=
    if 2 * r < d then f
    else if d < 2 * r then f + 1
    else if f % 2 = 0 then f else f + 1
  (if x.num < 0 then "-" else "")
    ++ toString (n.natAbs / 10) ++ "." ++ toString (n.natAbs % 10)

/-- One entry of a psutil sensor group.  `current = none` embeds a
malformed entry: reading `.current` on it raises `AttributeError`. -/
structure SensorReading where
  current : Option Rat
  deriving DecidableEq

/-- The temperature part of `BatteryMonitor.update_data`
(src/battery_monitor.py lines 177-188).  The argument is the ordered list
of sensor groups of `psutil.sensors_temperatures()`; `[]` embeds a falsy
result (`None` or an empty dict).  Returns the new text of `temp_label`,
or `.error` for an exception that propagates (this block has no
`try`/`except`).  The `Â°C` suffix is the literal byte sequence in the
source file. -/
def updateTemp (temps : List (List SensorReading)) : Except String String :=
  match temps with
  | [] => Except.ok ("CPU Temperature: " ++ "N/A")
  | firstList :: _ =>
    match firstList with
    | [] => Except.ok ("CPU Temperature: " ++ "N/A")
    | r :: _ =>
      match r.current with
      | some v => Except.ok ("CPU Temperature: " ++ format1f v ++ "Â°C")
      | none => Except.error ("AttributeError")

/-- The result of `psutil.sensors_battery()` when a battery is present. -/
structure BatteryInfo where
  percent : Rat
  secsleft : Int
  power_plugged : Bool
  deriving DecidableEq

/-- The two parallel in-memory series `self.times` / `self.battery_levels`. -/
structure MonitorSeries where
  times : List String
  battery_levels : List Rat
  deriving DecidableEq

/-- What the battery part of one `update_data` tick produces: the new
series and the new texts of the two labels. -/
structure BatteryTickResult where
  series : MonitorSeries
  batteryLabel : String
  timeRemainingLabel : String
  deriving DecidableEq

/-- The battery part of `BatteryMonitor.update_data`
(src/battery_monitor.py lines 207-253): if a battery is reported, set the
two labels, then append the formatted wall-clock time and the raw percent
to the two series; otherwise set both labels to `N/A` and leave the
series untouched. -/
def updateBatterySection (battery : Option BatteryInfo) (now : ClockTime)
    (s : MonitorSeries) : BatteryTickResult :=
  match battery with
  | some b =>
    { series :=
        { times := s.times ++ [formatClock now]
          battery_levels := s.battery_levels ++ [b.percent] }
      batteryLabel := "Battery: " ++ format1f b.percent ++ "%"
      timeRemainingLabel :=
        "Time: " ++ timeRemainingStr b.power_plugged b.secsleft }
  | none =>
    { series := s
      batteryLabel := "Battery: " ++ "N/A"
      timeRemainingLabel := "Time: " ++ "N/A" }

/-- One worker process spawned by `CPULoader.start`.  A
`multiprocessing.Process` child runs with its own copy of the parent's
memory (fork or spawn), so the `self.running` the child's loop reads is a
process-local copy fixed at spawn time: `flagCopy`.  `alive` records
whether the OS process has been terminated. -/
structure WorkerProc where
  flagCopy : Bool
  alive : Bool
  deriving DecidableEq

/-- The `CPULoader` object as seen by the UI (parent) process
(src/battery_monitor.py lines 27-49). -/
structure CPULoader where
  running : Bool
  processes : List WorkerProc
  deriving DecidableEq

namespace CPULoader

/-- `CPULoader.__init__`: not running, no tracked processes. -/
def init : CPULoader := { running := false, processes := [] }

/-- `CPULoader.start(num_cores)` (lines 38-43): set `running = True`,
then spawn `num_cores` processes and append each to `self.processes`.
Each child receives a copy of the object, so its `flagCopy` is the
parent's `running` at spawn time (just set to `true`); there is no guard
against already running. -/
def start (num_cores : Nat) (st : CPULoader) : CPULoader :=
  let st1 : CPULoader := { st with running := true }
  { st1 with
    processes :=
      st1.processes ++ List.replicate num_cores ⟨st1.running, true⟩ }

/-- The parent's assignment `self.running = False`, the first line of
`CPULoader.stop`.  It mutates only the parent's copy of the flag: the
workers' `flagCopy` fields live in other processes and are untouched. -/
def clearFlag (st : CPULoader) : CPULoader := { st with running := false }

/-- `p.terminate()` on every tracked process. -/
def terminateAll (st : CPULoader) : CPULoader :=
  { st with processes := st.processes.map (fun w => { w with alive := false }) }

/-- `CPULoader.stop()` (lines 45-49): clear the parent's flag, terminate
every tracked process, then `self.processes.clear()`. -/
def stop (st : CPULoader) : CPULoader :=
  let st1 := terminateAll (clearFlag st)
  { st1 with processes := [] }

end CPULoader

/-- The loop of `CPULoader.cpu_load` (lines 32-36) as run inside a worker
process, with fuel counting loop iterations: returns `true` iff the loop
has exited (taken the `break`) within `fuel` iterations.  The guard reads
the worker's own `flagCopy`; nothing in the loop body writes it, so it is
constant across iterations. -/
def cpuLoadRun (flagCopy : Bool) : Nat → Bool
  | 0 => false
  | fuel + 1 => if !flagCopy then true else cpuLoadRun flagCopy fuel

/-- The CSV header row written by `BatteryMonitor.__init__`. -/
def csvHeader : List String := ["Time", "Battery Percentage"]

/-- The CSV-file setup in `BatteryMonitor.__init__`
(src/battery_monitor.py lines 101-105): `none` is an absent file; if the
file does not exist, create it with exactly the header row, otherwise
leave it untouched. -/
def initCsv (fs : Option (List (List String))) : Option (List (List String)) :=
  match fs with
  | none => some [csvHeader]
  | some rows => some rows

/-- One row appended by `BatteryMonitor.log_data`: the formatted
timestamp and the battery percent.  The percent is kept as the exact
value (`csv.writer` stringifies the raw float, preserving it in full
precision). -/
structure LogRow where
  time : String
  percent : Rat
  deriving DecidableEq

/-- `BatteryMonitor.log_data` (src/battery_monitor.py lines 255-263):
query the battery once; if present append exactly one row (formatted
time, raw percent) to the file; otherwise do nothing. -/
def logData (battery : Option BatteryInfo) (now : ClockTime)
    (file : List LogRow) : List LogRow :=
  match battery with
  | some b => file ++ [⟨formatClock now, b.percent⟩]
  | none => file

/-- The UI state that `BatteryMonitor.toggle_load` reads and writes. -/
structure UIState where
  buttonLabel : String
  spinEnabled : Bool
  spinValue : Nat
  statusLabel : String
  loader : CPULoader
  deriving DecidableEq

/-- The UI state right after `BatteryMonitor.__init__` / `setup_ui`:
button text `"Start Load"`, spinbox enabled (Qt default) with value 1,
status `Idle`, loader not running. -/
def initUI : UIState :=
  { buttonLabel := "Start Load"
    spinEnabled := true
    spinValue := 1
    statusLabel := "Status: " ++ "Idle"
    loader := CPULoader.init }

/-- `BatteryMonitor.toggle_load` (src/battery_monitor.py lines 162-173):
dispatch on the button label; start the loader with the spinbox value and
flip label/spinbox/status, or stop it and flip them back. -/
def toggleLoad (st : UIState) : UIState :=
  if st.buttonLabel = "Start Load" then
    { st with
      loader := CPULoader.start st.spinValue st.loader
      buttonLabel := "Stop Load"
      spinEnabled := false
      statusLabel := "Status: " ++ "Loading CPU..." }
  else
    { st with
      loader := CPULoader.stop st.loader
      buttonLabel := "Start Load"
      spinEnabled := true
      statusLabel := "Status: " ++ "Idle" }

/-! ## Theorems about the claims -/

/-- Claim C1: the time-remaining string on a tick with battery available
is "Charging" whenever `power_plugged` is true regardless of `secsleft`;
"Unlimited" when `secsleft` is the unlimited sentinel and not plugged;
"Calculating..." when `secsleft` is the unknown sentinel (and not
plugged); and otherwise the hours and zero-padded minutes of `secsleft`
with suffix " remaining" (e.g. 3725 unplugged gives "1:02 remaining"). -/
theorem C1_time_remaining_format (plugged : Bool) (secs : Int) :
    (plugged = true → timeRemainingStr plugged secs = "Charging") ∧
    (plugged = false → secs = POWER_TIME_UNLIMITED →
      timeRemainingStr plugged secs = "Unlimited") ∧
    (plugged = false → secs = POWER_TIME_UNKNOWN →
      timeRemainingStr plugged secs = "Calculating...") ∧
    (plugged = false → secs ≠ POWER_TIME_UNLIMITED → secs ≠ POWER_TIME_UNKNOWN →
      timeRemainingStr plugged secs =
        intStr (secs / 3600) ++ ":" ++ pad2 ((secs % 3600) / 60) ++ " remaining") ∧
    timeRemainingStr false 3725 = "1:02 remaining" := by
  refine ⟨?_, ?_, ?_, ?_, by decide⟩
  · intro h; subst h; rfl
  · intro h h2; subst h; subst h2; rfl
  · intro h h2; subst h; subst h2; rfl
  · intro h h2 h3
    subst h
    simp only [timeRemainingStr, POWER_TIME_UNLIMITED, POWER_TIME_UNKNOWN] at h2 h3 ⊢
    rw [if_neg (by simp), if_neg h2, if_neg h3]
    rw [Int.fdiv_eq_ediv _ (by norm_num), Int.fdiv_eq_ediv _ (by norm_num),
      Int.fmod_eq_emod _ (by norm_num)]
    have hdd : secs / 60 / 60 = secs / 3600 := by omega
    have hm : secs / 60 % 60 = secs % 3600 / 60 := by omega
    rw [hdd, hm]

/-- Witness for C1 at concrete inputs: plugged at 3725 seconds gives
"Charging"; unplugged at 3725 seconds gives "1:02 remaining". -/
theorem C1_witness :
    timeRemainingStr true 3725 = "Charging" ∧
    timeRemainingStr false 3725 = "1:02 remaining" := by
  constructor
  · exact (C1_time_remaining_format true 3725).1 rfl
  · have h := (C1_time_remaining_format false 3725).2.2.2.1 rfl
      (by decide) (by decide)
    exact h.trans (by decide)

/-- Claim C2 counterexample: a temperature reading whose `current` field
is missing is not degraded to "N/A" — the temperature block has no
`try`/`except`, so the attribute lookup raises an uncaught
`AttributeError` out of the tick. -/
theorem C2_counterexample :
    updateTemp [[⟨none⟩]] = Except.error ("AttributeError") ∧
    updateTemp [[⟨none⟩]] ≠ Except.ok ("CPU Temperature: " ++ "N/A") := by
  refine ⟨rfl, ?_⟩
  simp [updateTemp]

/-- Claim C2 (amended): when the temperature category is absent or the
first sensor group is empty, the tick sets the temperature display to
"N/A" without raising; when the first entry of the first group has a
value it is shown with one decimal place and the source's literal
`Â°C` suffix; but an entry missing its `current` field raises an
uncaught `AttributeError` (the temperature path, unlike the fan path,
has no exception guard). -/
theorem C2_temp_fallback_amended :
    (updateTemp [] = Except.ok ("CPU Temperature: " ++ "N/A")) ∧
    (∀ gs, updateTemp ([] :: gs) = Except.ok ("CPU Temperature: " ++ "N/A")) ∧
    (∀ (v : Rat) (rs : List SensorReading) (gs : List (List SensorReading)),
      updateTemp ((⟨some v⟩ :: rs) :: gs) =
        Except.ok ("CPU Temperature: " ++ format1f v ++ "Â°C")) ∧
    (∀ (rs : List SensorReading) (gs : List (List SensorReading)),
      updateTemp ((⟨none⟩ :: rs) :: gs) = Except.error ("AttributeError")) :=
  ⟨rfl, fun _ => rfl, fun _ _ _ => rfl, fun _ _ => rfl⟩

/-- Claim C3: on a tick where the battery source reports unavailable the
battery and time-remaining labels are set to the "N/A" placeholder and
both series are left unchanged. -/
theorem C3_battery_unavailable (now : ClockTime) (s : MonitorSeries) :
    (updateBatterySection none now s).batteryLabel = "Battery: " ++ "N/A" ∧
    (updateBatterySection none now s).timeRemainingLabel = "Time: " ++ "N/A" ∧
    (updateBatterySection none now s).series.times = s.times ∧
    (updateBatterySection none now s).series.battery_levels = s.battery_levels :=
  ⟨rfl, rfl, rfl, rfl⟩

/-- Claim C4: for a valid percent reading `p ∈ [0,100]`, after the tick
the last element of the battery-percent series is `p` itself (unmodified)
and the last element of the timestamp series is the tick's wall-clock
time formatted as HH:MM:SS. -/
theorem C4_sample_appended (b : BatteryInfo) (now : ClockTime)
    (s : MonitorSeries) (_h0 : 0 ≤ b.percent) (_h100 : b.percent ≤ 100) :
    ((updateBatterySection (some b) now s).series.battery_levels).getLast?
        = some b.percent ∧
    ((updateBatterySection (some b) now s).series.times).getLast?
        = some (formatClock now) := by
  constructor <;> simp [updateBatterySection]

/-- Witness for C4 at percent 87, clock 12:34:56, empty prior series. -/
theorem C4_witness :
    ((updateBatterySection (some ⟨87, -1, false⟩) ⟨12, 34, 56⟩
        ⟨[], []⟩).series.battery_levels).getLast? = some 87 ∧
    ((updateBatterySection (some ⟨87, -1, false⟩) ⟨12, 34, 56⟩
        ⟨[], []⟩).series.times).getLast? = some "12:34:56" := by
  have h := C4_sample_appended ⟨87, -1, false⟩ ⟨12, 34, 56⟩ ⟨[], []⟩
    (by decide) (by decide)
  exact ⟨h.1, h.2.trans (by decide)⟩

/-- Claim C5: for every `n ≥ 1`, `start n` from the idle state followed by
`stop` leaves the tracked worker set empty and the running flag false;
and immediately after any completed `stop` the worker set is empty iff
the running flag is false. -/
theorem C5_start_stop_invariant (n : Nat) (_h : 1 ≤ n) :
    (CPULoader.stop (CPULoader.start n CPULoader.init)).processes = [] ∧
    (CPULoader.stop (CPULoader.start n CPULoader.init)).running = false ∧
    ∀ st : CPULoader,
      ((CPULoader.stop st).processes = [] ↔ (CPULoader.stop st).running = false) := by
  refine ⟨rfl, rfl, ?_⟩
  intro st
  constructor <;> intro _ <;> rfl

/-- Witness for C5 at `n = 4`, as in the spec's example. -/
theorem C5_witness :
    (CPULoader.stop (CPULoader.start 4 CPULoader.init)).processes = [] ∧
    (CPULoader.stop (CPULoader.start 4 CPULoader.init)).running = false :=
  ⟨(C5_start_stop_invariant 4 (by decide)).1,
    (C5_start_stop_invariant 4 (by decide)).2.1⟩

/-- Claim C6 counterexample: calling `start` while already loading is not
a no-op — from the loading state with one tracked worker, `start 1`
spawns and appends another worker, changing the state. -/
theorem C6_counterexample :
    CPULoader.start 1 ⟨true, [⟨true, true⟩]⟩ ≠ ⟨true, [⟨true, true⟩]⟩ := by
  decide

/-- Claim C6 (amended): `stop` while idle (not running, no tracked
workers) is a no-op and raises no error; but `start n` while already
loading is unguarded: it keeps the running flag true and appends `n`
further workers to the tracked set. -/
theorem C6_reentrancy_amended :
    (CPULoader.stop ⟨false, []⟩ = ⟨false, []⟩) ∧
    ∀ (st : CPULoader) (n : Nat), st.running = true →
      (CPULoader.start n st).running = true ∧
      (CPULoader.start n st).processes
        = st.processes ++ List.replicate n ⟨true, true⟩ := by
  refine ⟨rfl, ?_⟩
  intro st n _
  exact ⟨rfl, rfl⟩

/-- Witness for C6 (amended) at the loading state with one worker. -/
theorem C6_witness :
    (CPULoader.stop ⟨false, []⟩ = ⟨false, []⟩) ∧
    (CPULoader.start 1 ⟨true, [⟨true, true⟩]⟩).processes
      = [⟨true, true⟩] ++ List.replicate 1 ⟨true, true⟩ :=
  ⟨C6_reentrancy_amended.1,
    (C6_reentrancy_amended.2 ⟨true, [⟨true, true⟩]⟩ 1 rfl).2⟩

/-- Claim C7: logger initialization writes the two-column CSV header only
when the file does not yet exist; once the file exists any number of
further initializations leave it unchanged, so the header appears in the
file exactly once. -/
theorem C7_csv_init_idempotent :
    (initCsv none = some [csvHeader]) ∧
    (∀ rows, initCsv (some rows) = some rows) ∧
    (∀ n : Nat, initCsv^[n] (initCsv none) = some [csvHeader]) ∧
    (∀ n : Nat,
      List.count csvHeader ((initCsv^[n] (initCsv none)).getD []) = 1) := by
  have hfix : ∀ n : Nat, initCsv^[n] (initCsv none) = some [csvHeader] := by
    intro n
    induction n with
    | zero => rfl
    | succ k ih => rw [Function.iterate_succ_apply', ih]; rfl
  refine ⟨rfl, fun _ => rfl, hfix, ?_⟩
  intro n
  rw [hfix n]
  decide

/-- Claim C8: on a logging tick with the battery present exactly one row
is appended — the formatted timestamp and the raw percent at full
precision (73.456 stays exactly 73.456, not the one-decimal display
value 73.5); with the battery unavailable the file is unchanged. -/
theorem C8_log_tick (b : BatteryInfo) (now : ClockTime) (file : List LogRow) :
    (logData (some b) now file = file ++ [⟨formatClock now, b.percent⟩]) ∧
    ((logData (some b) now file).length = file.length + 1) ∧
    ((logData (some b) now file).getLast? = some ⟨formatClock now, b.percent⟩) ∧
    (logData none now file = file) ∧
    ((logData (some ⟨73.456, -1, false⟩) now file).getLast?.map LogRow.percent
      = some 73.456) ∧
    ((73.456 : Rat) = Rat.mk' 9182 125 (by decide) (by decide)) ∧
    ((73.456 : Rat) ≠ (73.5 : Rat)) := by
  refine ⟨rfl, by simp [logData], by simp [logData], rfl, by simp [logData], ?_, ?_⟩
  · rw [Rat.mk'_eq_divInt, Rat.divInt_eq_div]; norm_num
  · norm_num

/-- Claim C9 counterexample: the stop flag is not shared across the
process boundary.  After `start 1` from the idle state, the parent's
`running = False` assignment leaves the worker's own copy of the flag
`true`, and the worker's busy loop has not exited after 1000 iterations
of re-checking that copy. -/
theorem C9_counterexample :
    ((CPULoader.clearFlag (CPULoader.start 1 CPULoader.init)).processes.map
        WorkerProc.flagCopy = [true]) ∧
    ((CPULoader.clearFlag (CPULoader.start 1 CPULoader.init)).running = false) ∧
    (cpuLoadRun true 1000 = false) := by
  refine ⟨rfl, rfl, ?_⟩
  set_option maxRecDepth 4000 in decide

/-- Claim C9 (amended): every worker spawned by `start` re-checks its own
process-local copy of the flag, captured as `true` at spawn time; the
parent's flag-clear in `stop` changes no worker's copy, so a worker never
exits by observing the flag (its loop runs forever on fuel), and workers
disappear only because `stop` forcibly terminates them and clears the
tracked set. -/
theorem C9_flag_not_shared_amended :
    (∀ (n : Nat) (st : CPULoader),
      (CPULoader.start n st).processes
        = st.processes ++ List.replicate n ⟨true, true⟩) ∧
    (∀ st : CPULoader, (CPULoader.clearFlag st).processes = st.processes) ∧
    (∀ fuel : Nat, cpuLoadRun true fuel = false) ∧
    (∀ (flag : Bool) (fuel : Nat),
      (cpuLoadRun flag (fuel + 1) = true ↔ flag = false)) ∧
    (∀ st : CPULoader, (CPULoader.stop st).processes = []) := by
  have hrun : ∀ fuel : Nat, cpuLoadRun true fuel = false := by
    intro fuel
    induction fuel with
    | zero => rfl
    | succ k ih => simpa [cpuLoadRun] using ih
  refine ⟨fun _ _ => rfl, fun _ => rfl, hrun, ?_, fun _ => rfl⟩
  intro flag fuel
  cases flag with
  | false => simp [cpuLoadRun]
  | true => simp [hrun (fuel + 1)]

/-- The invariant of claim C10: the loader runs iff the button says
"Stop Load", and the spinbox is enabled iff the loader is not running. -/
def uiInv (st : UIState) : Prop :=
  (st.loader.running = true ↔ st.buttonLabel = "Stop Load") ∧
  (st.spinEnabled = true ↔ st.loader.running = false)

/-- After `toggle_load`, whatever the prior state, the label, the running
flag, and the spinbox enablement are in sync. -/
theorem toggleLoad_uiInv (st : UIState) : uiInv (toggleLoad st) := by
  unfold toggleLoad
  by_cases h : st.buttonLabel = "Start Load" <;>
    simp [h, uiInv, CPULoader.start, CPULoader.stop, CPULoader.clearFlag,
      CPULoader.terminateAll]

/-- Claim C10: after any sequence of toggle actions from the initial
state (label "Start Load", loader idle), the loader's running flag is
true iff the button label is "Stop Load", and the spinbox is enabled iff
the loader is not running. -/
theorem C10_toggle_sync (n : Nat) : uiInv (toggleLoad^[n] initUI) := by
  cases n with
  | zero =>
    constructor
    · constructor <;> intro h <;> simp [initUI, CPULoader.init] at h
    · constructor <;> intro _ <;> rfl
  | succ k =>
    rw [Function.iterate_succ_apply']
    exact toggleLoad_uiInv _

end BatteryMonitor
